import Mathlib

/-
Verification of the chemex CEST analysis modules: the two- and three-state
exchange-model parameter builders, the fast in-phase 3-state CEST profile
model, the CEST plotting helpers, and the fit orchestrator.

Numeric data is embedded as exact rationals where the code only compares,
sorts and averages values, and as real numbers where square roots and
exponentials occur.  External dependencies (the Liouvillian constructor,
the eigendecomposition routine, the lmfit minimizer, the parameter-status
reader) are abstracted as function parameters.

The file lists every definition first and every theorem afterwards.
-/

namespace Chemex

/-! ## numpy helpers used by the plotting module -/

/-- Ascending insertion into a sorted list; building block of the sort
underlying the median computation. -/
def insertAsc (a : ℚ) : List ℚ → List ℚ
  | [] => [a]
  | b :: t => if a ≤ b then a :: b :: t else b :: insertAsc a t

/-- Ascending sort of a list of rationals. -/
def sortAsc (l : List ℚ) : List ℚ := l.foldr insertAsc []

/-- Median with numpy semantics: sort ascending; an odd-length list takes
the middle element, an even-length list averages the two middle elements. -/
def npMedian (l : List ℚ) : ℚ :=
  let s := sortAsc l
  let n := l.length
  if n % 2 = 1 then s.getD (n / 2) 0
  else (s.getD (n / 2 - 1) 0 + s.getD (n / 2) 0) / 2

/-! ## chemex.experiments.cest.plotting.sigma_estimator -/

/-- Embeds plotting.sigma_estimator: for each element xi the median of the
absolute differences to every element of x is taken, then the median of
those per-element medians, scaled by 1.1926. -/
def sigma_estimator (x : List ℚ) : ℚ :=
  npMedian (x.map (fun xi => npMedian (x.map (fun xj => |xi - xj|)))) * 1.1926

/-- The formula stated by the spec: median absolute deviation about the
median, scaled by 1.1926. -/
def madSigma (x : List ℚ) : ℚ :=
  npMedian (x.map (fun xi => |xi - npMedian x|)) * 1.1926

/-- Median absolute difference from the point xi to every point of x. -/
def medAbsDiff (x : List ℚ) (xi : ℚ) : ℚ :=
  npMedian (x.map (fun xj => |xi - xj|))

/-- Median over all points of their median absolute difference to the
sample, scaled by 1.1926. -/
def pointwiseMedianSigma (x : List ℚ) : ℚ :=
  npMedian (x.map (medAbsDiff x)) * 1.1926

/-! ## chemex.bases.two_state.exchange_model: ligand-binding branches

The kab_kd and kon_koff branches register derived parameters through
algebraic expression strings; the functions below embed those expressions.
-/

/-- Embeds the l_free expression of the kab_kd branch: the positive root of
the bimolecular binding quadratic, 0.5 * (l_total - p_total - kd_ab +
sqrt((l_total - p_total - kd_ab)^2 + 4 * kd_ab * l_total)). -/
noncomputable def l_free_expr (p_total l_total kd_ab : ℝ) : ℝ :=
  0.5 * (l_total - p_total - kd_ab +
    Real.sqrt ((l_total - p_total - kd_ab) ^ 2 + 4.0 * kd_ab * l_total))

/-- Embeds the pb expression of both binding branches:
(l_total - l_free) / p_total. -/
noncomputable def pb_binding (p_total l_total l_free : ℝ) : ℝ :=
  (l_total - l_free) / p_total

/-- Embeds the kex_ab expression of the kab_kd branch. -/
noncomputable def kex_kab_kd (kd_ab kab l_free : ℝ) : ℝ :=
  (l_free + kd_ab) * kab

/-- Embeds the kd expression of the kon_koff branch: koff / kon. -/
noncomputable def kd_kon_koff (kon koff : ℝ) : ℝ := koff / kon

/-- Embeds the kex_ab expression of the kon_koff branch. -/
noncomputable def kex_kon_koff (kon koff l_free : ℝ) : ℝ :=
  l_free * kon + koff

/-! ## chemex.bases.three_state.exchange_model: temperature branch

The 3st.temperature branch registers pb, pc, kex_ab, kex_bc and kex_ac as
derived parameters bound to expression strings; the functions below embed
those expressions.  The gas constant R (taken from the external constants
table and rescaled by 0.001 in the source) is kept as a parameter.
-/

/-- Inverse-temperature difference appearing in every extrapolation
expression: 1/(T + 273.15) - 1/(T0 + 273.15). -/
noncomputable def invTdiff (T T0 : ℝ) : ℝ :=
  1.0 / (T + 273.15) - 1.0 / (T0 + 273.15)

/-- Embeds the pb expression of the 3st.temperature branch:
KAB / (1 + KAB + KAC) with KAB = (pb0/(1-pb0-pc0)) * exp(-dH_AB/R * dt) and
KAC = (pc0/(1-pb0-pc0)) * exp(-dH_AC/R * dt). -/
noncomputable def pb3_temperature (R T T0 pb0 pc0 dH_AB dH_AC : ℝ) : ℝ :=
  ((pb0 / (1.0 - pb0 - pc0)) * Real.exp (-dH_AB / R * invTdiff T T0)) /
    (1.0 + (pb0 / (1.0 - pb0 - pc0)) * Real.exp (-dH_AB / R * invTdiff T T0) +
      (pc0 / (1.0 - pb0 - pc0)) * Real.exp (-dH_AC / R * invTdiff T T0))

/-- Embeds the pc expression of the 3st.temperature branch:
KAC / (1 + KAB + KAC). -/
noncomputable def pc3_temperature (R T T0 pb0 pc0 dH_AB dH_AC : ℝ) : ℝ :=
  ((pc0 / (1.0 - pb0 - pc0)) * Real.exp (-dH_AC / R * invTdiff T T0)) /
    (1.0 + (pb0 / (1.0 - pb0 - pc0)) * Real.exp (-dH_AB / R * invTdiff T T0) +
      (pc0 / (1.0 - pb0 - pc0)) * Real.exp (-dH_AC / R * invTdiff T T0))

/-- Embeds the kex_ab expression of the 3st.temperature branch. -/
noncomputable def kexab3_temperature (R T T0 pb0 pc0 kexAB0 dH_AB dH_TSAB : ℝ) : ℝ :=
  kexAB0 * Real.exp (-dH_TSAB / R * invTdiff T T0) *
    (pb0 / (1.0 - pc0) +
      (1.0 - pb0 - pc0) / (1.0 - pc0) * Real.exp (dH_AB / R * invTdiff T T0))

/-- Embeds the kex_bc expression of the 3st.temperature branch. -/
noncomputable def kexbc3_temperature (R T T0 pb0 pc0 kexBC0 dH_AB dH_AC dH_TSBC : ℝ) : ℝ :=
  kexBC0 * Real.exp (-dH_TSBC / R * invTdiff T T0) *
    (pc0 / (pb0 + pc0) * Real.exp (dH_AB / R * invTdiff T T0) +
      pb0 / (pb0 + pc0) * Real.exp (dH_AC / R * invTdiff T T0))

/-- Embeds the kex_ac expression of the 3st.temperature branch. -/
noncomputable def kexac3_temperature (R T T0 pb0 pc0 kexAC0 dH_AC dH_TSAC : ℝ) : ℝ :=
  kexAC0 * Real.exp (-dH_TSAC / R * invTdiff T T0) *
    (pc0 / (1.0 - pb0) +
      (1.0 - pb0 - pc0) / (1.0 - pb0) * Real.exp (dH_AC / R * invTdiff T T0))

/-! ## chemex.experiments.cest.iph.3st_fast: the intensity scale

Profile._calculate_scale computes sum(cal * val / err ** 2) divided by
sum((cal / err) ** 2) over the per-point arrays; the arrays are zipped into
one list of (calculated, measured, uncertainty) triples.
-/

/-- Zips the calculated, measured and uncertainty arrays pointwise. -/
def zip3 (cal val err : List ℝ) : List (ℝ × ℝ × ℝ) :=
  cal.zip (val.zip err)

/-- Numerator sum of _calculate_scale: sum of cal * val / err ** 2. -/
noncomputable def sumCalValErr2 (pts : List (ℝ × ℝ × ℝ)) : ℝ :=
  (pts.map (fun p => p.1 * p.2.1 / p.2.2 ^ 2)).sum

/-- Denominator sum of _calculate_scale: sum of (cal / err) ** 2. -/
noncomputable def sumCalErr2 (pts : List (ℝ × ℝ × ℝ)) : ℝ :=
  (pts.map (fun p => (p.1 / p.2.2) ^ 2)).sum

/-- Sum of (val / err) ** 2, the constant term of the quadratic objective. -/
noncomputable def sumValErr2 (pts : List (ℝ × ℝ × ℝ)) : ℝ :=
  (pts.map (fun p => (p.2.1 / p.2.2) ^ 2)).sum

/-- Embeds Profile._calculate_scale. -/
noncomputable def calculate_scale (cal val err : List ℝ) : ℝ :=
  sumCalValErr2 (zip3 cal val err) / sumCalErr2 (zip3 cal val err)

/-- The weighted least-squares objective sum(((scale * cal - val) / err) ** 2)
minimized by the intensity scale. -/
noncomputable def chi2Objective (pts : List (ℝ × ℝ × ℝ)) (scale : ℝ) : ℝ :=
  (pts.map (fun p => ((scale * p.1 - p.2.1) / p.2.2) ^ 2)).sum

/-! ## chemex.experiments.cest.iph.3st_fast: the Profile state and the core
prediction

The mutable per-profile state consists of the three measurement arrays and
the static metadata read from the experiment details.  The Liouvillian
constructor (chemex.bases.iph_3st.compute_liouvillian) and the scipy
eigendecomposition-based propagation it feeds are external to this slice;
their composition, from the per-state physical inputs to the real part of
the propagated state-A Iz component, is abstracted as a function argument.
-/

/-- Mutable state and static metadata of one CEST profile. -/
@[ext]
structure ProfileState where
  b1_offsets : List ℝ
  val : List ℝ
  err : List ℝ
  carrier : ℝ
  ppm_to_rads : ℝ
  b1_frq : ℝ
  time_t1 : ℝ
  on_resonance_filter : ℝ

/-- Physical inputs handed to the external Liouvillian construction and
eigendecomposition-based propagation for one offset. -/
structure LiouInput where
  pb : ℝ
  pc : ℝ
  kex_ab : ℝ
  kex_bc : ℝ
  kex_ac : ℝ
  lambda_i_a : ℝ
  rho_i_a : ℝ
  omega_i_a : ℝ
  lambda_i_b : ℝ
  rho_i_b : ℝ
  omega_i_b : ℝ
  lambda_i_c : ℝ
  rho_i_c : ℝ
  omega_i_c : ℝ
  omega1x_i : ℝ
  time_t1 : ℝ

/-- Physical parameter tuple passed to Profile._calculate_profile. -/
structure PointParams where
  pb : ℝ
  pc : ℝ
  kex_ab : ℝ
  kex_bc : ℝ
  kex_ac : ℝ
  dw_i_ab : ℝ
  dw_i_ac : ℝ
  rho_i_a : ℝ
  lambda_i_a : ℝ
  dlambda_i_ab : ℝ
  dlambda_i_ac : ℝ
  cs_i_a : ℝ

/-- Per-state inputs assembled by _calculate_profile for one measured
offset before calling the external Liouvillian machinery. -/
noncomputable def liouInputOf (s : ProfileState) (p : PointParams)
    (b1_offset : ℝ) : LiouInput :=
  { pb := p.pb
    pc := p.pc
    kex_ab := p.kex_ab
    kex_bc := p.kex_bc
    kex_ac := p.kex_ac
    lambda_i_a := p.lambda_i_a
    rho_i_a := p.rho_i_a
    omega_i_a := (p.cs_i_a - s.carrier) * s.ppm_to_rads - 2 * Real.pi * b1_offset
    lambda_i_b := p.lambda_i_a + p.dlambda_i_ab
    rho_i_b := p.rho_i_a
    omega_i_b := (p.cs_i_a - s.carrier) * s.ppm_to_rads - 2 * Real.pi * b1_offset
      + p.dw_i_ab * s.ppm_to_rads
    lambda_i_c := p.lambda_i_a + p.dlambda_i_ac
    rho_i_c := p.rho_i_a
    omega_i_c := (p.cs_i_a - s.carrier) * s.ppm_to_rads - 2 * Real.pi * b1_offset
      + p.dw_i_ac * s.ppm_to_rads
    omega1x_i := 2 * Real.pi * s.b1_frq
    time_t1 := s.time_t1 }

/-- Embeds the per-offset body of Profile._calculate_profile: an offset at
or below -10000 Hz is treated as a reference point whose prediction is the
equilibrium A population 1 - pb - pc; any other offset goes through the
Liouvillian propagation. -/
noncomputable def calculatePoint (liou : LiouInput → ℝ) (s : ProfileState)
    (p : PointParams) (b1_offset : ℝ) : ℝ :=
  if b1_offset ≤ -1.0e4 then 1 - p.pb - p.pc
  else liou (liouInputOf s p b1_offset)

/-- Embeds Profile._calculate_profile: the per-offset computation mapped
over the stored offsets. -/
noncomputable def calculate_profile_core (liou : LiouInput → ℝ)
    (s : ProfileState) (p : PointParams) (offsets : List ℝ) : List ℝ :=
  offsets.map (calculatePoint liou s p)

/-- The intensity scale of one profile: _calculate_scale applied to the
core prediction on the stored offsets against the stored measurements. -/
noncomputable def profile_scale (liou : LiouInput → ℝ) (s : ProfileState)
    (p : PointParams) : ℝ :=
  calculate_scale (calculate_profile_core liou s p s.b1_offsets) s.val s.err

/-- Embeds Profile.calculate_profile without alternate offsets: the core
prediction on the stored offsets times the fitted scale. -/
noncomputable def calculate_profile (liou : LiouInput → ℝ) (s : ProfileState)
    (p : PointParams) : List ℝ :=
  (calculate_profile_core liou s p s.b1_offsets).map
    (fun v => v * profile_scale liou s p)

/-- Embeds Profile.calculate_profile with alternate offsets: the core
prediction on the supplied offsets times the scale fitted on the stored
offsets. -/
noncomputable def calculate_profile_at (liou : LiouInput → ℝ)
    (s : ProfileState) (p : PointParams) (offsets : List ℝ) : List ℝ :=
  (calculate_profile_core liou s p offsets).map
    (fun v => v * profile_scale liou s p)

/-- Modelled from the spec: calculate_synthetic_profile, called by
compute_profiles, lives on the external base-profile interface and is not
part of this slice; per the spec it evaluates the fitted curve on supplied
plotting offsets, which is the alternate-offsets behaviour of
calculate_profile (uncached core prediction on those offsets, scaled by
the fit to the stored data). -/
noncomputable def calculate_synthetic_profile (liou : LiouInput → ℝ)
    (s : ProfileState) (p : PointParams) (offsets : List ℝ) : List ℝ :=
  calculate_profile_at liou s p offsets

/-- Embeds Profile.b1_offsets_to_ppm: 2 * pi * offset / ppm_to_rads +
carrier, mapped over a list of offsets. -/
noncomputable def b1_offsets_to_ppm (s : ProfileState) (offsets : List ℝ) :
    List ℝ :=
  offsets.map (fun o => 2 * Real.pi * o / s.ppm_to_rads + s.carrier)

/-! ## chemex.experiments.cest.iph.3st_fast: filter_points -/

/-- The offset-from-resonance used by filter_points:
(cs - carrier) * ppm_to_rads / (2 pi) - b1_offset. -/
noncomputable def nuOffset (s : ProfileState) (cs : ℝ) (b1_offset : ℝ) : ℝ :=
  (cs - s.carrier) * s.ppm_to_rads / (2.0 * Real.pi) - b1_offset

/-- The retention mask of filter_points: keep a point when the magnitude of
its offset-from-resonance exceeds half the on-resonance filter width. -/
noncomputable def keepPoint (s : ProfileState) (cs : ℝ) (b1_offset : ℝ) : Bool :=
  decide (|nuOffset s cs b1_offset| > s.on_resonance_filter * 0.5)

/-- Boolean-mask indexing of a parallel array xs by a mask computed from
the offsets array, as the numpy expressions val[mask] and err[mask]. -/
noncomputable def maskSel (p : ℝ → Bool) (offs xs : List ℝ) : List ℝ :=
  ((offs.zip xs).filter (fun q => p q.1)).map Prod.snd

/-- Mask selection for filter_points: the retention mask comes from the
stored offsets. -/
noncomputable def maskSelect (s : ProfileState) (cs : ℝ) (xs : List ℝ) :
    List ℝ :=
  maskSel (keepPoint s cs) s.b1_offsets xs

/-- Embeds Profile.filter_points: the three stored arrays are replaced in
place by their mask-selected versions; cs is the current cs_A fit value. -/
noncomputable def filter_points (s : ProfileState) (cs : ℝ) : ProfileState :=
  { s with
    b1_offsets := maskSelect s cs s.b1_offsets
    val := maskSelect s cs s.val
    err := maskSelect s cs s.err }

/-! ## chemex.experiments.cest.plotting: compute_profiles -/

/-- Python min over a list; empty input raises ValueError, modelled as
none. -/
noncomputable def listMin : List ℝ → Option ℝ
  | [] => none
  | a :: t => some (t.foldl min a)

/-- Python max over a list; empty input raises ValueError, modelled as
none. -/
noncomputable def listMax : List ℝ → Option ℝ
  | [] => none
  | a :: t => some (t.foldl max a)

/-- Embeds plotting.set_lim: (min - margin, max + margin) with margin =
(max - min) * scale; a ValueError on empty input is modelled as none. -/
noncomputable def set_lim (values : List ℝ) (scale : ℝ) : Option (ℝ × ℝ) :=
  match listMin values, listMax values with
  | some vmin, some vmax =>
      some (vmin - (vmax - vmin) * scale, vmax + (vmax - vmin) * scale)
  | _, _ => none

/-- numpy linspace with endpoint: n samples from lo to hi, the i-th being
lo + (hi - lo) * i / (n - 1). -/
noncomputable def npLinspace (lo hi : ℝ) (n : ℕ) : List ℝ :=
  (List.range n).map (fun i : ℕ => lo + (hi - lo) * (i : ℝ) / ((n : ℝ) - 1))

/-- numpy mean: sum divided by length (NaN with a warning on empty input,
never an exception). -/
noncomputable def npMean (l : List ℝ) : ℝ := l.sum / l.length

/-- The on-resonance mask of compute_profiles: -10000 < offset < 10000. -/
noncomputable def onResMask (off : ℝ) : Bool :=
  decide (-10000.0 < off ∧ off < 10000.0)

/-- The stored offsets retained by the on-resonance mask. -/
noncomputable def onResOffsets (s : ProfileState) : List ℝ :=
  s.b1_offsets.filter onResMask

/-- Boolean-mask indexing of a parallel array by the on-resonance mask of
the offsets array. -/
noncomputable def onResSelect (s : ProfileState) (xs : List ℝ) : List ℝ :=
  maskSel onResMask s.b1_offsets xs

/-- Boolean-mask indexing by the complement mask (the reference points). -/
noncomputable def refSelect (s : ProfileState) (xs : List ℝ) : List ℝ :=
  maskSel (fun off => !onResMask off) s.b1_offsets xs

/-- The per-peak output tuple of compute_profiles. -/
structure PeakOutput where
  b1_ppm_exp : List ℝ
  mag_cal : List ℝ
  mag_exp : List ℝ
  mag_err : List ℝ
  b1_ppm_fit : List ℝ
  mag_fit : List ℝ
  cs : ℝ
  dw : ℝ

/-- Embeds the per-peak body of plotting.compute_profiles: reference points
normalize the intensities, the on-resonance points are converted to ppm,
and the fitted curve is evaluated on a 500-point grid spanning the
on-resonance offsets padded by 2 percent. -/
noncomputable def computeProfilesOne (liou : LiouInput → ℝ) (s : ProfileState)
    (p : PointParams) : Option PeakOutput :=
  match set_lim (onResOffsets s) 0.02 with
  | none => none
  | some (lo, hi) =>
      some
        { b1_ppm_exp := onResSelect s (b1_offsets_to_ppm s s.b1_offsets)
          mag_cal := (onResSelect s (calculate_profile liou s p)).map
            (fun v => v / npMean (refSelect s s.val))
          mag_exp := (onResSelect s s.val).map
            (fun v => v / npMean (refSelect s s.val))
          mag_err := (onResSelect s s.err).map
            (fun v => v / |npMean (refSelect s s.val)|)
          b1_ppm_fit := b1_offsets_to_ppm s (npLinspace lo hi 500)
          mag_fit := (calculate_synthetic_profile liou s p
              (npLinspace lo hi 500)).map
            (fun v => v / npMean (refSelect s s.val))
          cs := p.cs_i_a
          dw := p.dw_i_ab }

/-! ## Concrete instances used by counterexamples and witnesses -/

/-- A concrete profile state whose only offset is a large positive one. -/
noncomputable def sampleState : ProfileState :=
  { b1_offsets := [20000], val := [1], err := [1], carrier := 0,
    ppm_to_rads := 1, b1_frq := 1, time_t1 := 1, on_resonance_filter := 0 }

/-- The all-zero physical parameter tuple (no exchange, no shifts). -/
noncomputable def zeroParams : PointParams :=
  { pb := 0, pc := 0, kex_ab := 0, kex_bc := 0, kex_ac := 0, dw_i_ab := 0,
    dw_i_ac := 0, rho_i_a := 0, lambda_i_a := 0, dlambda_i_ab := 0,
    dlambda_i_ac := 0, cs_i_a := 0 }

/-- A concrete profile state for the filtering witnesses: one point lying
exactly on resonance, with the default filter width 0. -/
noncomputable def filterState : ProfileState :=
  { b1_offsets := [0, 3], val := [1, 2], err := [1, 1], carrier := 0,
    ppm_to_rads := 1, b1_frq := 1, time_t1 := 1, on_resonance_filter := 0 }

/-! ## chemex.fitting: run_fit and find_independent_clusters

The lmfit minimizer and the parameter-status reader are external; they are
kept abstract as function arguments.  The clustering pass only reads names
and vary flags, so a fit parameter is embedded as a name with a vary flag.
-/

/-- A fit parameter as seen by the clustering pass: its full name and its
current vary flag. -/
structure FitVar where
  name : String
  vary : Bool

/-- A profile as seen by the fit orchestrator: the full names it
references (map_names.values()). -/
structure FitProfile where
  pnames : List String

/-- The parameters referenced by one profile, looked up by name in the
global collection (names are present in a well-formed collection). -/
def paramsProfile (params : List FitVar) (prof : FitProfile) : List FitVar :=
  prof.pnames.filterMap (fun n => params.find? (fun v => v.name == n))

/-- Names of the currently-varying parameters of a sub-collection. -/
def varyNames (ps : List FitVar) : List String :=
  (ps.filter (fun v => v.vary)).map (fun v => v.name)

/-- Dictionary update of one entry: replace the entry of the same name or
append a new one. -/
def setVar (base : List FitVar) (v : FitVar) : List FitVar :=
  if base.any (fun w => w.name == v.name) then
    base.map (fun w => if w.name == v.name then v else w)
  else base ++ [v]

/-- Dictionary update of a collection, as Parameters.update and the
write-back loop of run_fit. -/
def updateVars (base add : List FitVar) : List FitVar :=
  add.foldl setVar base

/-- One independence cluster: its profiles and its private parameters. -/
abbrev Cluster : Type := List FitProfile × List FitVar

/-- The scan of find_independent_clusters over the existing clusters in
creation order: the profile joins the first cluster whose varying names
intersect its own; none is returned when no cluster intersects. -/
def addToFirstCluster (pf : List FitVar) (prof : FitProfile) :
    List Cluster → Option (List Cluster)
  | [] => none
  | c :: rest =>
      if (varyNames pf).any (fun n => (varyNames c.2).contains n) then
        some ((c.1 ++ [prof], updateVars c.2 pf) :: rest)
      else (addToFirstCluster pf prof rest).map (fun cs => c :: cs)

/-- Embeds fitting.find_independent_clusters: a single left-to-right pass
over the profiles, joining the first intersecting cluster or starting a
new one at the end of the cluster list. -/
def find_independent_clusters (data : List FitProfile)
    (params : List FitVar) : List Cluster :=
  data.foldl
    (fun clusters prof =>
      let pf := paramsProfile params prof
      match addToFirstCluster pf prof clusters with
      | some cs => cs
      | none => clusters ++ [(([prof], pf) : Cluster)])
    []

/-- One minimizer invocation observed during run_fit: either a
cluster-local minimization or a joint minimization over the full dataset. -/
inductive FitEvent where
  | clusterMin : FitEvent
  | jointMin : FitEvent
deriving DecidableEq

/-- A named stage of the fit plan with its parameter-status items. -/
structure FitSection where
  name : String
  items : List (String × String)

/-- Embeds the section defaulting of run_fit: with no configured sections
one implicit 'Standard Calculation' section with no items is added. -/
def effectiveSections (sections : List FitSection) : List FitSection :=
  if sections.isEmpty then [{ name := "Standard Calculation", items := [] }]
  else sections

/-- Embeds the per-stage body of run_fit: apply the stage's status items,
partition into clusters, run one minimization per cluster and merge when
more than one cluster exists, then always run one joint minimization.
Returns the updated collection and the minimizer invocations in order. -/
def runStage (minimize : List FitVar → List FitProfile → List FitVar)
    (applyStatus : List FitVar → List (String × String) → List FitVar)
    (sec : FitSection) (params : List FitVar) (data : List FitProfile) :
    List FitVar × List FitEvent :=
  let params1 := applyStatus params sec.items
  let clusters := find_independent_clusters data params1
  if 1 < clusters.length then
    let afterClusters := clusters.foldl
      (fun acc c => (updateVars acc.1 (minimize c.2 c.1),
        acc.2 ++ [FitEvent.clusterMin]))
      (params1, ([] : List FitEvent))
    (minimize afterClusters.1 data, afterClusters.2 ++ [FitEvent.jointMin])
  else
    (minimize params1 data, [FitEvent.jointMin])

/-- Embeds fitting.run_fit: the effective sections are processed in order,
threading the parameter collection and accumulating the minimizer
invocations. -/
def run_fit (minimize : List FitVar → List FitProfile → List FitVar)
    (applyStatus : List FitVar → List (String × String) → List FitVar)
    (sections : List FitSection) (params : List FitVar)
    (data : List FitProfile) : List FitVar × List FitEvent :=
  (effectiveSections sections).foldl
    (fun acc sec =>
      let r := runStage minimize applyStatus sec acc.1 data
      (r.1, acc.2 ++ r.2))
    (params, [])

/-- Identity stand-ins for the external minimizer and status reader. -/
def mzId : List FitVar → List FitProfile → List FitVar := fun p _ => p

/-- Identity stand-in for the external parameter-status application. -/
def apId : List FitVar → List (String × String) → List FitVar := fun p _ => p

/-- A concrete stage with no status items. -/
def sec0 : FitSection := { name := "s", items := [] }

/-- One profile referencing the single varying parameter a. -/
def dataA : List FitProfile := [{ pnames := ["a"] }]

/-- The collection holding the single varying parameter a. -/
def paramsA : List FitVar := [{ name := "a", vary := true }]

/-- Two profiles referencing disjoint varying parameters a and b. -/
def dataAB : List FitProfile := [{ pnames := ["a"] }, { pnames := ["b"] }]

/-- The collection holding the varying parameters a and b. -/
def paramsAB : List FitVar :=
  [{ name := "a", vary := true }, { name := "b", vary := true }]

/-! ## exchange-model parameter builders: keyword dispatch

Both update_params builders validate the model keyword first: anything
outside the recognized set prints a warning and is replaced by the direct
default, whose branch is a pass.  The recognized non-direct branches
register parameters through the external name registry, so their bodies
are abstracted as function arguments; their registered expression algebra
is embedded separately above.  The 2st.temperature body is additionally
syntactically malformed in the source (a nested '.format(' construct), so
the two-state module cannot be imported as written.
-/

/-- One row of a Parameters.add_many call: name, value, vary flag (none
for derived parameters), bounds, and whether a derived expression is
attached. -/
structure ParamRow where
  name : String
  value : ℝ
  vary : Option Bool
  lower : Option ℝ
  upper : Option ℝ
  hasExpr : Bool

/-- The caller-owned state mutated by update_params: the short-to-full
name mapping and the parameter collection. -/
structure BuilderState where
  map_names : List (String × String)
  params : List ParamRow

/-- Recognized model keywords of the two-state builder. -/
def recognizedTwoState : List String :=
  ["2st.pb_kex", "2st.eyring", "2st.temperature", "2st.kab_kd",
    "2st.kon_koff"]

/-- Recognized model keywords of the three-state builder. -/
def recognizedThreeState : List String := ["3st.pb_kex", "3st.temperature"]

/-- Embeds two_state.exchange_model.update_params: keyword validation with
warn-and-default to '2st.pb_kex' (whose branch is a pass), then dispatch
to the recognized branch bodies.  Returns the warning flag with the
updated state. -/
def updateParamsTwoState
    (eyringB temperatureB kabKdB konKoffB : BuilderState → BuilderState)
    (model : String) (st : BuilderState) : Bool × BuilderState :=
  let warned := !(recognizedTwoState.contains model)
  let model1 := if recognizedTwoState.contains model then model
    else "2st.pb_kex"
  if model1 == "2st.pb_kex" then (warned, st)
  else if model1 == "2st.eyring" then (warned, eyringB st)
  else if model1 == "2st.temperature" then (warned, temperatureB st)
  else if model1 == "2st.kab_kd" then (warned, kabKdB st)
  else (warned, konKoffB st)

/-- Embeds three_state.exchange_model.update_params: keyword validation
with warn-and-default to '3st.pb_kex' (whose branch is a pass), then the
single recognized non-direct branch. -/
def updateParamsThreeState (temperatureB : BuilderState → BuilderState)
    (model : String) (st : BuilderState) : Bool × BuilderState :=
  let warned := !(recognizedThreeState.contains model)
  let model1 := if recognizedThreeState.contains model then model
    else "3st.pb_kex"
  if model1 == "3st.pb_kex" then (warned, st)
  else (warned, temperatureB st)

/-- An empty builder state. -/
def emptyBuilderState : BuilderState := { map_names := [], params := [] }

/-! ## Theorems -/

/-- Claim C4 (counterexample): on the sample [0, 1, 2, 6] the value computed
by sigma_estimator differs from the MAD-based formula claimed by the spec
(the code yields 1.5 times 1.1926, the claimed formula 1.0 times 1.1926). -/
theorem claim_C4_counterexample :
    sigma_estimator [0, 1, 2, 6] ≠ madSigma [0, 1, 2, 6] := by
  norm_num [sigma_estimator, madSigma, npMedian, sortAsc, insertAsc,
    abs_of_nonneg, abs_of_nonpos]

/-- Claim C4 (amended): for every non-empty list x, sigma_estimator x equals
the median over points xi of the median of the absolute differences from xi
to every point, times 1.1926 (not the median absolute deviation about the
median). -/
theorem claim_C4_amended (x : List ℚ) (_hx : x ≠ []) :
    sigma_estimator x = pointwiseMedianSigma x := rfl

/-- Claim C4 (witness): the amended identity instantiated on the concrete
non-empty sample [0, 1, 2, 6]. -/
theorem claim_C4_amended_witness :
    [0, 1, 2, 6] ≠ ([] : List ℚ) ∧
      sigma_estimator [0, 1, 2, 6] = pointwiseMedianSigma [0, 1, 2, 6] :=
  ⟨by simp, claim_C4_amended [0, 1, 2, 6] (by simp)⟩

/-- Free-ligand bounds and mass balance shared by both binding branches. -/
theorem lFree_bounds_mass_balance (p_total l_total kd : ℝ)
    (hp : 0 < p_total) (hl : 0 ≤ l_total) (hkd : 0 ≤ kd) :
    0 ≤ l_free_expr p_total l_total kd ∧
      l_free_expr p_total l_total kd ≤ l_total ∧
      pb_binding p_total l_total (l_free_expr p_total l_total kd) * p_total
        + l_free_expr p_total l_total kd = l_total := by
  have hsq : (0:ℝ) ≤ (l_total - p_total - kd) ^ 2 + 4.0 * kd * l_total := by
    positivity
  have hs0 : 0 ≤ Real.sqrt ((l_total - p_total - kd) ^ 2 + 4.0 * kd * l_total) :=
    Real.sqrt_nonneg _
  have habs : |l_total - p_total - kd| ≤
      Real.sqrt ((l_total - p_total - kd) ^ 2 + 4.0 * kd * l_total) := by
    rw [← Real.sqrt_sq_eq_abs]
    exact Real.sqrt_le_sqrt (by nlinarith [mul_nonneg hkd hl])
  have hup : Real.sqrt ((l_total - p_total - kd) ^ 2 + 4.0 * kd * l_total) ≤
      l_total + p_total + kd := by
    have h2 : (l_total - p_total - kd) ^ 2 + 4.0 * kd * l_total ≤
        (l_total + p_total + kd) ^ 2 := by nlinarith [mul_nonneg hp.le hl]
    calc Real.sqrt ((l_total - p_total - kd) ^ 2 + 4.0 * kd * l_total)
        ≤ Real.sqrt ((l_total + p_total + kd) ^ 2) := Real.sqrt_le_sqrt h2
      _ = l_total + p_total + kd := Real.sqrt_sq (by linarith)
  have hlow := neg_abs_le (l_total - p_total - kd)
  constructor
  · unfold l_free_expr
    nlinarith [habs, hlow]
  constructor
  · unfold l_free_expr
    nlinarith [hup]
  · unfold pb_binding
    rw [div_mul_cancel₀ _ (ne_of_gt hp)]
    ring

/-- Claim C3 (counterexample): with the non-negative inputs p_total = 1,
l_total = 10, Kd = 0, the derived free-ligand concentration is 9, which
exceeds min(l_total, p_total) = 1; the claimed bound l_free <= min(l_total,
p_total) is false. -/
theorem claim_C3_counterexample :
    (0:ℝ) ≤ 1 ∧ (0:ℝ) ≤ 10 ∧ (0:ℝ) ≤ 0 ∧
      l_free_expr 1 10 0 = 9 ∧ ¬ l_free_expr 1 10 0 ≤ min (10:ℝ) 1 := by
  have h : l_free_expr 1 10 0 = 9 := by
    unfold l_free_expr
    rw [show ((10:ℝ) - 1 - 0) ^ 2 + 4.0 * 0 * 10 = 9 ^ 2 by norm_num,
      Real.sqrt_sq (by norm_num)]
    norm_num
  refine ⟨by norm_num, by norm_num, le_refl 0, h, ?_⟩
  rw [h]
  norm_num

/-- Claim C3 (amended): in both binding parameterizations, for positive
p_total and non-negative l_total and Kd (resp. kon, koff), the derived
free-ligand concentration satisfies 0 <= l_free <= l_total, and
pB * p_total + l_free = l_total (mass balance); the bound l_free <=
p_total does not hold in general, and p_total = 0 would make the pB
expression divide by zero. -/
theorem claim_C3_amended (p_total l_total kd kon koff : ℝ)
    (hp : 0 < p_total) (hl : 0 ≤ l_total) (hkd : 0 ≤ kd)
    (hkon : 0 ≤ kon) (hkoff : 0 ≤ koff) :
    (0 ≤ l_free_expr p_total l_total kd ∧
      l_free_expr p_total l_total kd ≤ l_total ∧
      pb_binding p_total l_total (l_free_expr p_total l_total kd) * p_total
        + l_free_expr p_total l_total kd = l_total) ∧
    (0 ≤ l_free_expr p_total l_total (kd_kon_koff kon koff) ∧
      l_free_expr p_total l_total (kd_kon_koff kon koff) ≤ l_total ∧
      pb_binding p_total l_total
          (l_free_expr p_total l_total (kd_kon_koff kon koff)) * p_total
        + l_free_expr p_total l_total (kd_kon_koff kon koff) = l_total) :=
  ⟨lFree_bounds_mass_balance p_total l_total kd hp hl hkd,
    lFree_bounds_mass_balance p_total l_total (kd_kon_koff kon koff) hp hl
      (div_nonneg hkoff hkon)⟩

/-- Claim C3 (witness): the amended bounds and mass balance instantiated at
p_total = 1, l_total = 10, Kd = 0, kon = 1, koff = 0. -/
theorem claim_C3_amended_witness :
    (0:ℝ) < 1 ∧ (0:ℝ) ≤ 10 ∧ (0:ℝ) ≤ 0 ∧ (0:ℝ) ≤ 1 ∧
      ((0 ≤ l_free_expr 1 10 0 ∧ l_free_expr 1 10 0 ≤ 10 ∧
          pb_binding 1 10 (l_free_expr 1 10 0) * 1 + l_free_expr 1 10 0 = 10) ∧
        (0 ≤ l_free_expr 1 10 (kd_kon_koff 1 0) ∧
          l_free_expr 1 10 (kd_kon_koff 1 0) ≤ 10 ∧
          pb_binding 1 10 (l_free_expr 1 10 (kd_kon_koff 1 0)) * 1
            + l_free_expr 1 10 (kd_kon_koff 1 0) = 10)) :=
  ⟨by norm_num, by norm_num, le_refl 0, by norm_num,
    claim_C3_amended 1 10 0 1 0 (by norm_num) (by norm_num) (le_refl 0)
      (by norm_num) (le_refl 0)⟩

/-- Claim C5: at sample temperature equal to the reference temperature T0,
the derived pB, pC, kex_AB, kex_BC and kex_AC expressions of the
three-state temperature-extrapolated model evaluate exactly to the
reference inputs pb0, pc0, kexAB0, kexBC0 and kexAC0, for all pb0, pc0 with
0 < pb0, 0 < pc0 and pb0 + pc0 < 1, every enthalpy, every reference rate
and every value of the gas constant. -/
theorem claim_C5_identity_at_T0
    (R T0 pb0 pc0 kexAB0 kexBC0 kexAC0 dH_AB dH_AC dH_TSAB dH_TSBC dH_TSAC : ℝ)
    (hb : 0 < pb0) (hc : 0 < pc0) (hbc : pb0 + pc0 < 1) :
    pb3_temperature R T0 T0 pb0 pc0 dH_AB dH_AC = pb0 ∧
      pc3_temperature R T0 T0 pb0 pc0 dH_AB dH_AC = pc0 ∧
      kexab3_temperature R T0 T0 pb0 pc0 kexAB0 dH_AB dH_TSAB = kexAB0 ∧
      kexbc3_temperature R T0 T0 pb0 pc0 kexBC0 dH_AB dH_AC dH_TSBC = kexBC0 ∧
      kexac3_temperature R T0 T0 pb0 pc0 kexAC0 dH_AC dH_TSAC = kexAC0 := by
  have hd : invTdiff T0 T0 = 0 := by unfold invTdiff; ring
  have habc : (0:ℝ) < 1.0 - pb0 - pc0 := by linarith
  have hnc : (1.0:ℝ) - pc0 ≠ 0 := by nlinarith
  have hnb : (1.0:ℝ) - pb0 ≠ 0 := by nlinarith
  have hsum : pb0 + pc0 ≠ 0 := by positivity
  refine ⟨?_, ?_, ?_, ?_, ?_⟩
  · unfold pb3_temperature
    rw [hd]
    simp only [mul_zero, Real.exp_zero, mul_one]
    field_simp
    ring
  · unfold pc3_temperature
    rw [hd]
    simp only [mul_zero, Real.exp_zero, mul_one]
    field_simp
    ring
  · unfold kexab3_temperature
    rw [hd]
    simp only [mul_zero, Real.exp_zero, mul_one]
    rw [div_add_div_same, show pb0 + (1.0 - pb0 - pc0) = 1.0 - pc0 from by ring,
      div_self hnc, mul_one]
  · unfold kexbc3_temperature
    rw [hd]
    simp only [mul_zero, Real.exp_zero, mul_one]
    rw [div_add_div_same, show pc0 + pb0 = pb0 + pc0 from by ring,
      div_self hsum, mul_one]
  · unfold kexac3_temperature
    rw [hd]
    simp only [mul_zero, Real.exp_zero, mul_one]
    rw [div_add_div_same, show pc0 + (1.0 - pb0 - pc0) = 1.0 - pb0 from by ring,
      div_self hnb, mul_one]

/-- Claim C5 (witness): the reference-temperature identity instantiated at
R = 1, T0 = 25, pb0 = pc0 = 1/4, kexAB0 = 2, kexBC0 = 3, kexAC0 = 4 and
unit enthalpies. -/
theorem claim_C5_identity_at_T0_witness :
    (0:ℝ) < 1/4 ∧ (1/4:ℝ) + 1/4 < 1 ∧
      (pb3_temperature 1 25 25 (1/4) (1/4) 1 1 = 1/4 ∧
        pc3_temperature 1 25 25 (1/4) (1/4) 1 1 = 1/4 ∧
        kexab3_temperature 1 25 25 (1/4) (1/4) 2 1 1 = 2 ∧
        kexbc3_temperature 1 25 25 (1/4) (1/4) 3 1 1 1 = 3 ∧
        kexac3_temperature 1 25 25 (1/4) (1/4) 4 1 1 = 4) :=
  ⟨by norm_num, by norm_num,
    claim_C5_identity_at_T0 1 25 (1/4) (1/4) 2 3 4 1 1 1 1 1
      (by norm_num) (by norm_num) (by norm_num)⟩

/-- The objective is a quadratic in the scale with leading coefficient
sumCalErr2 and linear coefficient -2 * sumCalValErr2. -/
theorem chi2Objective_quadratic (pts : List (ℝ × ℝ × ℝ)) (s : ℝ) :
    chi2Objective pts s =
      s ^ 2 * sumCalErr2 pts - 2 * s * sumCalValErr2 pts + sumValErr2 pts := by
  induction pts with
  | nil => simp [chi2Objective, sumCalErr2, sumCalValErr2, sumValErr2]
  | cons p t ih =>
    simp only [chi2Objective, sumCalErr2, sumCalValErr2, sumValErr2,
      List.map_cons, List.sum_cons] at *
    rw [ih]
    ring

/-- The leading coefficient is positive once some point has a non-zero
calculated value and a non-zero uncertainty. -/
theorem sumCalErr2_pos (pts : List (ℝ × ℝ × ℝ)) (p : ℝ × ℝ × ℝ)
    (hmem : p ∈ pts) (hc : p.1 ≠ 0) (he : p.2.2 ≠ 0) :
    0 < sumCalErr2 pts := by
  have hterm : 0 < (p.1 / p.2.2) ^ 2 :=
    pow_two_pos_of_ne_zero (div_ne_zero hc he)
  have hsub : ∀ q ∈ pts.map (fun q : ℝ × ℝ × ℝ => (q.1 / q.2.2) ^ 2), 0 ≤ q := by
    intro q hq
    obtain ⟨r, _, rfl⟩ := List.mem_map.1 hq
    positivity
  have hmem' : (p.1 / p.2.2) ^ 2 ∈ pts.map (fun q : ℝ × ℝ × ℝ => (q.1 / q.2.2) ^ 2) :=
    List.mem_map_of_mem _ hmem
  calc (0:ℝ) < (p.1 / p.2.2) ^ 2 := hterm
    _ ≤ (pts.map (fun q : ℝ × ℝ × ℝ => (q.1 / q.2.2) ^ 2)).sum :=
        List.single_le_sum hsub _ hmem'

/-- Claim C6: the intensity scale computed by _calculate_scale is the strict
minimizer of the weighted least-squares objective: for non-empty data with
all calculated values and uncertainties non-zero, perturbing the scale by
any non-zero epsilon strictly increases sum(((scale * cal - val) / err) ** 2). -/
theorem claim_C6_scale_minimizer (cal val err : List ℝ) (ε : ℝ)
    (hlv : val.length = cal.length) (hle : err.length = cal.length)
    (hne : cal ≠ []) (hc : ∀ c ∈ cal, c ≠ 0) (he : ∀ e ∈ err, e ≠ 0)
    (hε : ε ≠ 0) :
    chi2Objective (zip3 cal val err) (calculate_scale cal val err) <
      chi2Objective (zip3 cal val err) (calculate_scale cal val err + ε) := by
  obtain ⟨c0, cal', rfl⟩ : ∃ c0 cal', cal = c0 :: cal' := by
    cases cal with
    | nil => exact absurd rfl hne
    | cons a t => exact ⟨a, t, rfl⟩
  obtain ⟨v0, val', rfl⟩ : ∃ v0 val', val = v0 :: val' := by
    cases val with
    | nil => simp at hlv
    | cons a t => exact ⟨a, t, rfl⟩
  obtain ⟨e0, err', rfl⟩ : ∃ e0 err', err = e0 :: err' := by
    cases err with
    | nil => simp at hle
    | cons a t => exact ⟨a, t, rfl⟩
  have hmem : (c0, v0, e0) ∈ zip3 (c0 :: cal') (v0 :: val') (e0 :: err') := by
    simp [zip3]
  have hA : 0 < sumCalErr2 (zip3 (c0 :: cal') (v0 :: val') (e0 :: err')) :=
    sumCalErr2_pos _ (c0, v0, e0) hmem
      (hc c0 (List.mem_cons_self c0 cal')) (he e0 (List.mem_cons_self e0 err'))
  rw [chi2Objective_quadratic, chi2Objective_quadratic]
  set s := calculate_scale (c0 :: cal') (v0 :: val') (e0 :: err') with hs
  set A := sumCalErr2 (zip3 (c0 :: cal') (v0 :: val') (e0 :: err')) with hA'
  set B := sumCalValErr2 (zip3 (c0 :: cal') (v0 :: val') (e0 :: err')) with hB
  have hkey : s * A = B := div_mul_cancel₀ _ (ne_of_gt hA)
  have hε2 : 0 < ε ^ 2 := pow_two_pos_of_ne_zero hε
  have h1 : (s + ε) ^ 2 * A = s ^ 2 * A + 2 * ε * (s * A) + ε ^ 2 * A := by ring
  have h2 : 2 * (s + ε) * B = 2 * s * B + 2 * ε * B := by ring
  rw [hkey] at h1
  have h3 : 0 < ε ^ 2 * A := mul_pos hε2 hA
  linarith [h1, h2, h3]

/-- Claim C6 (witness): on the single point cal = 1, val = 2, err = 1 the
fitted scale is 2 and shifting it by epsilon = 1 strictly increases the
objective. -/
theorem claim_C6_scale_minimizer_witness :
    chi2Objective (zip3 [1] [2] [1]) (calculate_scale [1] [2] [1]) <
      chi2Objective (zip3 [1] [2] [1]) (calculate_scale [1] [2] [1] + 1) :=
  claim_C6_scale_minimizer [1] [2] [1] 1 rfl rfl (by simp)
    (by norm_num) (by norm_num) one_ne_zero

/-- Claim C1 (counterexample): the reference branch of _calculate_profile
is selected by the one-sided test b1_offset <= -10000, not by the
magnitude test of the claim.  At offset +20000 Hz the magnitude exceeds
10000 yet the Liouvillian branch runs (here an external propagator
returning 0 exhibits a prediction different from 1 - pb - pc = 1), and at
offset -10000 Hz the magnitude does not exceed 10000 yet the reference
branch runs. -/
theorem claim_C1_counterexample :
    |(20000:ℝ)| > 10000 ∧
      calculatePoint (fun _ => 0) sampleState zeroParams 20000 = 0 ∧
      1 - zeroParams.pb - zeroParams.pc = 1 ∧
      calculatePoint (fun _ => 0) sampleState zeroParams 20000 ≠
        1 - zeroParams.pb - zeroParams.pc ∧
      ¬ |(-10000:ℝ)| > 10000 ∧
      calculatePoint (fun _ => 0) sampleState zeroParams (-10000) =
        1 - zeroParams.pb - zeroParams.pc := by
  have h1 : calculatePoint (fun _ => 0) sampleState zeroParams 20000 = 0 := by
    simp only [calculatePoint]
    rw [if_neg (by norm_num)]
  have h2 : (1:ℝ) - zeroParams.pb - zeroParams.pc = 1 := by
    simp [zeroParams]
  refine ⟨by norm_num, h1, h2, ?_, by norm_num, ?_⟩
  · rw [h1, h2]
    norm_num
  · simp only [calculatePoint]
    rw [if_pos (by norm_num)]

/-- Claim C1 (amended): the reference branch of _calculate_profile is
taken exactly for offsets at or below -10000 Hz, where the prediction is
exactly 1 - pb - pc independent of every kinetic and relaxation parameter
and of the external Liouvillian propagation; every other offset, including
large positive ones, is handed to the Liouvillian propagation branch. -/
theorem claim_C1_amended (liou : LiouInput → ℝ) (s : ProfileState)
    (p : PointParams) (b1_offset : ℝ) :
    (b1_offset ≤ -1.0e4 →
      calculatePoint liou s p b1_offset = 1 - p.pb - p.pc) ∧
    (¬ b1_offset ≤ -1.0e4 →
      calculatePoint liou s p b1_offset = liou (liouInputOf s p b1_offset)) := by
  constructor
  · intro h
    simp only [calculatePoint]
    rw [if_pos h]
  · intro h
    simp only [calculatePoint]
    rw [if_neg h]

/-- Claim C1 (witness): the amended branch behaviour instantiated at the
concrete offsets -20000 Hz (reference branch) and +20000 Hz (propagation
branch) with a propagator returning 0. -/
theorem claim_C1_amended_witness :
    ((-20000:ℝ) ≤ -1.0e4 ∧
      calculatePoint (fun _ => 0) sampleState zeroParams (-20000) =
        1 - zeroParams.pb - zeroParams.pc) ∧
    (¬ (20000:ℝ) ≤ -1.0e4 ∧
      calculatePoint (fun _ => 0) sampleState zeroParams 20000 =
        (fun _ => (0:ℝ)) (liouInputOf sampleState zeroParams 20000)) :=
  ⟨⟨by norm_num,
      (claim_C1_amended (fun _ => 0) sampleState zeroParams (-20000)).1
        (by norm_num)⟩,
    ⟨by norm_num,
      (claim_C1_amended (fun _ => 0) sampleState zeroParams 20000).2
        (by norm_num)⟩⟩

/-- Masking the offsets array by a mask computed from itself is a filter. -/
theorem maskSel_self (p : ℝ → Bool) (l : List ℝ) :
    maskSel p l l = l.filter p := by
  induction l with
  | nil => rfl
  | cons a t ih =>
    cases hpa : p a <;>
      simp [maskSel, List.zip_cons_cons, List.filter_cons, hpa] <;>
      simpa [maskSel] using ih

/-- Re-masking already-masked parallel arrays changes nothing: the
surviving offsets all satisfy the mask, so every paired entry survives
again. -/
theorem maskSel_idem (p : ℝ → Bool) :
    ∀ l xs : List ℝ, l.length = xs.length →
      maskSel p (l.filter p) (maskSel p l xs) = maskSel p l xs := by
  intro l
  induction l with
  | nil =>
    intro xs h
    rfl
  | cons a t ih =>
    intro xs h
    cases xs with
    | nil => simp at h
    | cons x xs' =>
      have h' : t.length = xs'.length := by simpa using h
      cases hpa : p a <;>
        simp only [maskSel, List.zip_cons_cons, List.filter_cons, hpa,
          Bool.false_eq_true, if_false, if_true, List.map_cons] <;>
        simpa [maskSel] using ih xs' h'

/-- Claim C9: filter_points is idempotent.  With matching array lengths,
applying it a second time with the same cs value leaves the stored
offsets, values and errors exactly as after the first application; the
metadata fields are never touched. -/
theorem claim_C9_filter_points_idempotent (s : ProfileState) (cs : ℝ)
    (hv : s.val.length = s.b1_offsets.length)
    (he : s.err.length = s.b1_offsets.length) :
    filter_points (filter_points s cs) cs = filter_points s cs := by
  ext1
  · show maskSel (keepPoint s cs)
        (maskSel (keepPoint s cs) s.b1_offsets s.b1_offsets)
        (maskSel (keepPoint s cs) s.b1_offsets s.b1_offsets) =
      maskSel (keepPoint s cs) s.b1_offsets s.b1_offsets
    rw [maskSel_self (keepPoint s cs) s.b1_offsets, maskSel_self,
      List.filter_filter]
    simp [Bool.and_self]
  · show maskSel (keepPoint s cs)
        (maskSel (keepPoint s cs) s.b1_offsets s.b1_offsets)
        (maskSel (keepPoint s cs) s.b1_offsets s.val) =
      maskSel (keepPoint s cs) s.b1_offsets s.val
    rw [maskSel_self]
    exact maskSel_idem (keepPoint s cs) s.b1_offsets s.val hv.symm
  · show maskSel (keepPoint s cs)
        (maskSel (keepPoint s cs) s.b1_offsets s.b1_offsets)
        (maskSel (keepPoint s cs) s.b1_offsets s.err) =
      maskSel (keepPoint s cs) s.b1_offsets s.err
    rw [maskSel_self]
    exact maskSel_idem (keepPoint s cs) s.b1_offsets s.err he.symm
  · rfl
  · rfl
  · rfl
  · rfl
  · rfl

/-- Claim C9 (witness): idempotence instantiated on the concrete profile
state with matching array lengths. -/
theorem claim_C9_filter_points_idempotent_witness :
    filter_points (filter_points filterState 0) 0 = filter_points filterState 0 :=
  claim_C9_filter_points_idempotent filterState 0 rfl rfl

/-- Claim C10: with the default on-resonance filter width of 0, every data
point whose offset-from-resonance is exactly zero is removed by
filter_points, because retention requires the magnitude to be strictly
greater than half the width; no surviving offset sits exactly at the
fitted resonance. -/
theorem claim_C10_zero_width_filter (s : ProfileState) (cs : ℝ)
    (h0 : s.on_resonance_filter = 0) :
    ∀ off ∈ (filter_points s cs).b1_offsets, nuOffset s cs off ≠ 0 := by
  intro off hoff
  have hoff' : off ∈ s.b1_offsets.filter (keepPoint s cs) := by
    have : (filter_points s cs).b1_offsets =
        s.b1_offsets.filter (keepPoint s cs) := maskSel_self _ _
    rwa [this] at hoff
  have hkeep : keepPoint s cs off = true := List.of_mem_filter hoff'
  have habs : |nuOffset s cs off| > s.on_resonance_filter * 0.5 := by
    simpa [keepPoint] using hkeep
  rw [h0] at habs
  intro hzero
  rw [hzero] at habs
  simp at habs

/-- Claim C10 (witness): the zero-width exclusion property instantiated on
the concrete profile state whose filter width is 0. -/
theorem claim_C10_zero_width_filter_witness :
    filterState.on_resonance_filter = 0 ∧
      ∀ off ∈ (filter_points filterState 0).b1_offsets,
        nuOffset filterState 0 off ≠ 0 :=
  ⟨rfl, claim_C10_zero_width_filter filterState 0 rfl⟩

/-- The linspace grid always has exactly n points. -/
theorem npLinspace_length (lo hi : ℝ) (n : ℕ) :
    (npLinspace lo hi n).length = n := by
  rw [npLinspace, List.length_map, List.length_range]

/-- The 500-point grid starts exactly at its lower bound. -/
theorem npLinspace500_first (lo hi : ℝ) :
    (npLinspace lo hi 500)[0]? = some lo := by
  rw [npLinspace, List.getElem?_map,
    List.getElem?_range (by norm_num : 0 < 500)]
  norm_num

/-- The 500-point grid ends exactly at its upper bound. -/
theorem npLinspace500_last (lo hi : ℝ) :
    (npLinspace lo hi 500)[499]? = some hi := by
  rw [npLinspace, List.getElem?_map,
    List.getElem?_range (by norm_num : 499 < 500)]
  have hval : lo + (hi - lo) * ((499:ℕ):ℝ) / (((500:ℕ):ℝ) - 1) = hi := by
    push_cast
    field_simp
    ring
  simp only [Option.map_some', hval]

set_option maxRecDepth 4000 in
/-- Claim C2: for a profile with at least one on-resonance point, the
per-peak body of compute_profiles succeeds (no error), builds a 500-point
grid spanning the observed on-resonance offset range padded by 2 percent
of its width on each side, and returns the fitted curve evaluated on that
grid normalized by the mean of the reference-point intensities. -/
theorem claim_C2_compute_profiles (liou : LiouInput → ℝ) (s : ProfileState)
    (p : PointParams) (h : onResOffsets s ≠ []) :
    ∃ vmin vmax out,
      listMin (onResOffsets s) = some vmin ∧
      listMax (onResOffsets s) = some vmax ∧
      computeProfilesOne liou s p = some out ∧
      out.b1_ppm_fit = b1_offsets_to_ppm s
        (npLinspace (vmin - (vmax - vmin) * 0.02)
          (vmax + (vmax - vmin) * 0.02) 500) ∧
      out.mag_fit = (calculate_synthetic_profile liou s p
          (npLinspace (vmin - (vmax - vmin) * 0.02)
            (vmax + (vmax - vmin) * 0.02) 500)).map
        (fun v => v / npMean (refSelect s s.val)) ∧
      out.mag_fit.length = 500 ∧
      (npLinspace (vmin - (vmax - vmin) * 0.02)
          (vmax + (vmax - vmin) * 0.02) 500)[0]? =
        some (vmin - (vmax - vmin) * 0.02) ∧
      (npLinspace (vmin - (vmax - vmin) * 0.02)
          (vmax + (vmax - vmin) * 0.02) 500)[499]? =
        some (vmax + (vmax - vmin) * 0.02) := by
  obtain ⟨a, t, hOn⟩ : ∃ a t, onResOffsets s = a :: t := by
    cases hOn : onResOffsets s with
    | nil => exact absurd hOn h
    | cons a t => exact ⟨a, t, rfl⟩
  · have hmin : listMin (onResOffsets s) = some (t.foldl min a) := by
      rw [hOn]; rfl
    have hmax : listMax (onResOffsets s) = some (t.foldl max a) := by
      rw [hOn]; rfl
    have hsl : set_lim (onResOffsets s) 0.02 =
        some (t.foldl min a - (t.foldl max a - t.foldl min a) * 0.02,
          t.foldl max a + (t.foldl max a - t.foldl min a) * 0.02) := by
      rw [set_lim, hmin, hmax]
    have hco : computeProfilesOne liou s p = some
        { b1_ppm_exp := onResSelect s (b1_offsets_to_ppm s s.b1_offsets)
          mag_cal := (onResSelect s (calculate_profile liou s p)).map
            (fun v => v / npMean (refSelect s s.val))
          mag_exp := (onResSelect s s.val).map
            (fun v => v / npMean (refSelect s s.val))
          mag_err := (onResSelect s s.err).map
            (fun v => v / |npMean (refSelect s s.val)|)
          b1_ppm_fit := b1_offsets_to_ppm s
            (npLinspace (t.foldl min a - (t.foldl max a - t.foldl min a) * 0.02)
              (t.foldl max a + (t.foldl max a - t.foldl min a) * 0.02) 500)
          mag_fit := (calculate_synthetic_profile liou s p
              (npLinspace (t.foldl min a - (t.foldl max a - t.foldl min a) * 0.02)
                (t.foldl max a + (t.foldl max a - t.foldl min a) * 0.02) 500)).map
            (fun v => v / npMean (refSelect s s.val))
          cs := p.cs_i_a
          dw := p.dw_i_ab } := by
      rw [computeProfilesOne, hsl]
    refine ⟨t.foldl min a, t.foldl max a, _, hmin, hmax, hco, rfl, rfl, ?_,
      npLinspace500_first _ _, npLinspace500_last _ _⟩
    simp [calculate_synthetic_profile, calculate_profile_at,
      calculate_profile_core, npLinspace_length]

/-- Claim C2 (witness): the per-peak computation succeeds on the concrete
profile state, whose offsets 0 and 3 are both on-resonance, and produces a
500-point fitted curve. -/
theorem claim_C2_compute_profiles_witness :
    onResOffsets filterState ≠ [] ∧
      ∃ out, computeProfilesOne (fun _ => 0) filterState zeroParams = some out ∧
        out.mag_fit.length = 500 := by
  have hne : onResOffsets filterState ≠ [] := by
    norm_num [onResOffsets, onResMask, filterState, List.filter_cons]
    simp
  obtain ⟨vmin, vmax, out, h1, h2, h3, h4, h5, h6, h7, h8⟩ :=
    claim_C2_compute_profiles (fun _ => 0) filterState zeroParams hne
  exact ⟨hne, out, h3, h6⟩

/-- The per-cluster loop of run_fit emits exactly one cluster-local
minimization event per cluster, in order. -/
theorem foldl_cluster_events
    (minimize : List FitVar → List FitProfile → List FitVar) :
    ∀ (clusters : List Cluster) (p : List FitVar) (evs : List FitEvent),
      (clusters.foldl
        (fun acc c => (updateVars acc.1 (minimize c.2 c.1),
          acc.2 ++ [FitEvent.clusterMin])) (p, evs)).2 =
        evs ++ List.replicate clusters.length FitEvent.clusterMin := by
  intro clusters
  induction clusters with
  | nil => intro p evs; simp
  | cons c t ih =>
    intro p evs
    simp only [List.foldl_cons]
    rw [ih]
    simp [List.replicate_succ]

/-- A stage whose clustering yields exactly one cluster performs exactly
one joint minimization. -/
theorem runStage_events_single
    (minimize : List FitVar → List FitProfile → List FitVar)
    (applyStatus : List FitVar → List (String × String) → List FitVar)
    (sec : FitSection) (params : List FitVar) (data : List FitProfile)
    (h : (find_independent_clusters data (applyStatus params sec.items)).length
      = 1) :
    (runStage minimize applyStatus sec params data).2 = [FitEvent.jointMin] := by
  simp only [runStage]
  rw [h]
  norm_num

/-- A stage whose clustering yields more than one cluster performs one
cluster-local minimization per cluster followed by one joint
minimization. -/
theorem runStage_events_multi
    (minimize : List FitVar → List FitProfile → List FitVar)
    (applyStatus : List FitVar → List (String × String) → List FitVar)
    (sec : FitSection) (params : List FitVar) (data : List FitProfile)
    (h : 1 < (find_independent_clusters data (applyStatus params sec.items)).length) :
    (runStage minimize applyStatus sec params data).2 =
      List.replicate
        (find_independent_clusters data (applyStatus params sec.items)).length
        FitEvent.clusterMin ++ [FitEvent.jointMin] := by
  simp only [runStage]
  rw [if_pos h]
  rw [foldl_cluster_events]
  simp

/-- run_fit on a single section runs exactly that stage. -/
theorem run_fit_single_section
    (minimize : List FitVar → List FitProfile → List FitVar)
    (applyStatus : List FitVar → List (String × String) → List FitVar)
    (sec : FitSection) (params : List FitVar) (data : List FitProfile) :
    (run_fit minimize applyStatus [sec] params data).2 =
      (runStage minimize applyStatus sec params data).2 := by
  simp [run_fit, effectiveSections]

/-- Claim C7: a stage whose clustering yields exactly one independent
cluster performs exactly one joint minimization; a stage with K > 1
clusters performs exactly K cluster-local minimizations followed by
exactly one joint minimization; and a fit configuration with no sections
runs exactly as one implicit stage with no parameter-status overrides. -/
theorem claim_C7_run_fit
    (minimize : List FitVar → List FitProfile → List FitVar)
    (applyStatus : List FitVar → List (String × String) → List FitVar)
    (sec : FitSection) (params : List FitVar) (data : List FitProfile) :
    ((find_independent_clusters data (applyStatus params sec.items)).length = 1 →
      (run_fit minimize applyStatus [sec] params data).2 = [FitEvent.jointMin]) ∧
    (1 < (find_independent_clusters data (applyStatus params sec.items)).length →
      (run_fit minimize applyStatus [sec] params data).2 =
        List.replicate
          (find_independent_clusters data (applyStatus params sec.items)).length
          FitEvent.clusterMin ++ [FitEvent.jointMin]) ∧
    run_fit minimize applyStatus [] params data =
      run_fit minimize applyStatus
        [{ name := "Standard Calculation", items := [] }] params data := by
  refine ⟨?_, ?_, rfl⟩
  · intro h
    rw [run_fit_single_section]
    exact runStage_events_single minimize applyStatus sec params data h
  · intro h
    rw [run_fit_single_section]
    exact runStage_events_multi minimize applyStatus sec params data h

/-- Claim C7 (witness): one cluster gives exactly one joint minimization,
two disjoint clusters give two cluster-local minimizations then one joint
minimization, and an empty configuration equals the implicit single
stage. -/
theorem claim_C7_run_fit_witness :
    (run_fit mzId apId [sec0] paramsA dataA).2 = [FitEvent.jointMin] ∧
      (run_fit mzId apId [sec0] paramsAB dataAB).2 =
        List.replicate 2 FitEvent.clusterMin ++ [FitEvent.jointMin] ∧
      run_fit mzId apId [] paramsA dataA =
        run_fit mzId apId [{ name := "Standard Calculation", items := [] }]
          paramsA dataA := by
  have h1 : (find_independent_clusters dataA (apId paramsA sec0.items)).length
      = 1 := by rfl
  have h2 : (find_independent_clusters dataAB (apId paramsAB sec0.items)).length
      = 2 := by rfl
  refine ⟨(claim_C7_run_fit mzId apId sec0 paramsA dataA).1 h1, ?_,
    (claim_C7_run_fit mzId apId sec0 paramsA dataA).2.2⟩
  have hm := (claim_C7_run_fit mzId apId sec0 paramsAB dataAB).2.1
    (by rw [h2]; norm_num)
  rw [h2] at hm
  exact hm

/-- Claim C8: for every model keyword outside the recognized sets, both
builders warn, substitute the direct default and return the caller's name
mapping and parameter collection unchanged, for every behaviour of the
recognized non-direct branch bodies. -/
theorem claim_C8_unrecognized_noop
    (eyringB temperatureB kabKdB konKoffB temperature3B :
      BuilderState → BuilderState)
    (model : String) (st2 st3 : BuilderState)
    (h2 : recognizedTwoState.contains model = false)
    (h3 : recognizedThreeState.contains model = false) :
    updateParamsTwoState eyringB temperatureB kabKdB konKoffB model st2 =
        (true, st2) ∧
      updateParamsThreeState temperature3B model st3 = (true, st3) := by
  constructor
  · have h2' : ¬ model ∈ recognizedTwoState := by simpa using h2
    simp [updateParamsTwoState, h2']
  · have h3' : ¬ model ∈ recognizedThreeState := by simpa using h3
    simp [updateParamsThreeState, h3']

/-- Claim C8 (witness): the unrecognized keyword 'bogus' warns and leaves
the empty builder state untouched in both builders, with identity branch
bodies. -/
theorem claim_C8_unrecognized_noop_witness :
    recognizedTwoState.contains "bogus" = false ∧
      recognizedThreeState.contains "bogus" = false ∧
      updateParamsTwoState id id id id "bogus" emptyBuilderState =
        (true, emptyBuilderState) ∧
      updateParamsThreeState id "bogus" emptyBuilderState =
        (true, emptyBuilderState) :=
  ⟨rfl, rfl,
    (claim_C8_unrecognized_noop id id id id id "bogus" emptyBuilderState
      emptyBuilderState rfl rfl).1,
    (claim_C8_unrecognized_noop id id id id id "bogus" emptyBuilderState
      emptyBuilderState rfl rfl).2⟩

end Chemex
